import Mathlib

/-!
Verification of the retail-sales ETL pipeline (`src/etl_pipeline.py`).

The embedding models one batch run of the pipeline:
* `RawRecord` — one row of the extracted CSV after pandas type coercion
  (`pd.to_datetime` / `pd.to_numeric` with `errors='coerce'`): an
  unparseable or missing cell is `none`.  Timestamps are modelled as
  natural numbers, monetary values as rationals.
* `DataQualityTracker` — metric and quarantine accumulators.
* `transform_data` — the staged rule pipeline of `transform_data`
  (lines 275-432): unparseable-date drop, three quarantine rules,
  all-null drop, exact-duplicate drop, missing-critical-field drop,
  standardization and the business-classifier flags.
* `DBState`, `run_etl_pipeline` — the orchestrator (lines 716-816)
  with the table (re)creation DDL, full/incremental extraction, the
  load steps and the batch-log insert.  Wall-clock timestamps carried
  by the code (`loaded_at`, `quarantined_at`, `execution_timestamp`,
  `batch_start`/`batch_end`, duration) are dropped from the model.
-/

/-- One extracted CSV row after pandas numeric/date coercion.  A `none`
field is a NaN/NaT cell (missing or unparseable in the source). -/
structure RawRecord where
  InvoiceNo : Option String
  StockCode : Option String
  Description : Option String
  Quantity : Option Int
  InvoiceDate : Option Nat
  UnitPrice : Option Rat
  CustomerID : Option Int
  Country : Option String
deriving DecidableEq, Repr

namespace RawRecord

/-- `df['quantity'] = pd.to_numeric(df['Quantity'], errors='coerce').fillna(0).astype(int)`. -/
def quantity (r : RawRecord) : Int := r.Quantity.getD 0

/-- `df['unit_price'] = pd.to_numeric(df['UnitPrice'], errors='coerce').fillna(0.0)`. -/
def unit_price (r : RawRecord) : Rat := r.UnitPrice.getD 0

/-- `df['customer_id'] = pd.to_numeric(df['CustomerID'], errors='coerce').astype('Int64')`:
the column stays nullable. -/
def customer_id (r : RawRecord) : Option Int := r.CustomerID

/-- `df['invoice_date'] = pd.to_datetime(df['InvoiceDate'], errors='coerce')`. -/
def invoice_date (r : RawRecord) : Option Nat := r.InvoiceDate

/-- `df['line_total'] = df['quantity'] * df['unit_price']`. -/
def line_total (r : RawRecord) : Rat := (r.quantity : Rat) * r.unit_price

end RawRecord

/-! String helpers mirroring the pandas `.str` accessors used in the
standardization step (lines 379-382).  They are written over the
character list of the string so that concrete instances reduce. -/

/-- Python `str.strip()` / pandas `.str.strip()`: remove leading and
trailing whitespace. -/
def pyStrip (s : String) : String :=
  ⟨(((s.data.dropWhile Char.isWhitespace).reverse.dropWhile Char.isWhitespace).reverse)⟩

/-- Pandas `.str.upper()`. -/
def pyUpper (s : String) : String := ⟨s.data.map Char.toUpper⟩

/-- Python `str.title()` helper: uppercase a letter that follows a
non-letter, lowercase a letter that follows a letter. -/
def pyTitleAux : Bool → List Char → List Char
  | _, [] => []
  | prevAlpha, c :: cs =>
      (if c.isAlpha then (if prevAlpha then c.toLower else c.toUpper) else c)
        :: pyTitleAux c.isAlpha cs

/-- Pandas `.str.title()`. -/
def pyTitle (s : String) : String := ⟨pyTitleAux true s.data⟩

/-- Pandas `.str.startswith('C')`: the first character is `'C'`. -/
def pyStartsWithC (s : String) : Bool :=
  match s.data with
  | [] => false
  | c :: _ => c == 'C'

namespace RawRecord

/-- `df['invoice_no'] = df['InvoiceNo'].astype(str).str.strip().str.upper()`
(Python renders a NaN cell as the string `"nan"`). -/
def invoice_no (r : RawRecord) : String := pyUpper (pyStrip (r.InvoiceNo.getD "nan"))

/-- `df['stock_code'] = df['StockCode'].astype(str).str.strip().str.upper()`. -/
def stock_code (r : RawRecord) : String := pyUpper (pyStrip (r.StockCode.getD "nan"))

/-- `df['description'] = df['Description'].fillna('UNKNOWN PRODUCT').str.strip()`. -/
def description (r : RawRecord) : String := pyStrip (r.Description.getD "UNKNOWN PRODUCT")

/-- `df['country'] = df['Country'].fillna('UNKNOWN').str.strip().str.title()`. -/
def country (r : RawRecord) : String := pyTitle (pyStrip (r.Country.getD "UNKNOWN"))

/-- `df['is_cancellation'] = df['invoice_no'].str.startswith('C', na=False)` (line 388). -/
def is_cancellation (r : RawRecord) : Bool := pyStartsWithC r.invoice_no

/-- `df['is_adjustment']` (lines 391-396): quantity < 0, not a
cancellation, unit price exactly 0, customer id absent. -/
def is_adjustment (r : RawRecord) : Bool :=
  decide (r.quantity < 0) && !r.is_cancellation
    && decide (r.unit_price = 0) && r.customer_id.isNone

/-- `df['is_guest_purchase'] = df['customer_id'].isna()` (line 399). -/
def is_guest_purchase (r : RawRecord) : Bool := r.customer_id.isNone

/-- `df['is_valid_sale']` (lines 402-406): quantity > 0, unit price > 0,
not a cancellation. -/
def is_valid_sale (r : RawRecord) : Bool :=
  decide (0 < r.quantity) && decide (0 < r.unit_price) && !r.is_cancellation

/-- `df['is_return'] = (df['quantity'] < 0) & (~df['is_adjustment'])` (line 409). -/
def is_return (r : RawRecord) : Bool := decide (r.quantity < 0) && !r.is_adjustment

end RawRecord

/-! Rule predicates of `transform_data`, in source order. -/

/-- Rows removed in the type-casting step: `df[df['invoice_date'].notna()]`
keeps the parseable dates, so this predicate marks the rejected rows. -/
def unparseableDate (r : RawRecord) : Bool := r.invoice_date.isNone

/-- AN001 (line 314): `(df['unit_price'] > 10000) & (df['quantity'].abs() < 100)`. -/
def suspiciousPrice (r : RawRecord) : Bool :=
  decide ((10000 : Rat) < r.unit_price) && decide (r.quantity.natAbs < 100)

/-- AN002 (line 326): `df['quantity'] == 0`. -/
def zeroQuantity (r : RawRecord) : Bool := decide (r.quantity = 0)

/-- AN003 (line 337): `df['unit_price'] < 0`. -/
def negativePrice (r : RawRecord) : Bool := decide (r.unit_price < 0)

/-- DQ001 (line 351): `df.dropna(how='all')` rejects a row whose every
column is NaN.  The dataframe at this point also carries the derived
columns `quantity`, `unit_price`, `line_total` (never NaN after
`fillna`) and `invoice_date`/`customer_id`, so a row is all-null only
if every original field is NaN — in particular `InvoiceDate`. -/
def allNullRow (r : RawRecord) : Bool :=
  r.InvoiceNo.isNone && r.StockCode.isNone && r.Description.isNone
    && r.Quantity.isNone && r.InvoiceDate.isNone && r.UnitPrice.isNone
    && r.CustomerID.isNone && r.Country.isNone

/-- DQ003 (lines 366-368): `df.dropna(subset=['InvoiceNo', 'StockCode',
'invoice_date', 'quantity', 'unit_price'])`.  The derived `quantity`
and `unit_price` columns are never NaN after `fillna(0)`, so only the
first three subset columns can reject a row.  `customer_id` is not in
the subset. -/
def missingCritical (r : RawRecord) : Bool :=
  r.InvoiceNo.isNone || r.StockCode.isNone || r.invoice_date.isNone

/-- One row of the `dq_metrics` accumulator (`DataQualityTracker.add_metric`,
lines 28-40, minus the wall-clock `execution_timestamp`). -/
structure DQMetric where
  batch_id : String
  rule_name : String
  rule_category : String
  rows_processed : Nat
  rows_passed : Nat
  rows_quarantined : Nat
  rows_dropped : Nat
  notes : String
deriving DecidableEq, Repr

/-- One row of the quarantine accumulator (`DataQualityTracker.quarantine_rows`,
lines 42-63, minus the wall-clock `quarantined_at`).  `raw_row_json` is
the full serialized snapshot of the row; serialization is modelled as
the record value itself. -/
structure QuarantineEntry where
  batch_id : String
  rule_name : String
  dq_reason : String
  original_invoice_no : Option String
  original_stock_code : Option String
  original_description : Option String
  original_quantity : Option Int
  original_invoice_date : Option Nat
  original_unit_price : Option Rat
  original_customer_id : Option Int
  original_country : Option String
  raw_row_json : RawRecord
deriving DecidableEq, Repr

/-- The entry `quarantine_rows` builds for one rejected row. -/
def mkQuarantineEntry (bid rule reason : String) (r : RawRecord) : QuarantineEntry :=
  { batch_id := bid
    rule_name := rule
    dq_reason := reason
    original_invoice_no := r.InvoiceNo
    original_stock_code := r.StockCode
    original_description := r.Description
    original_quantity := r.Quantity
    original_invoice_date := r.InvoiceDate
    original_unit_price := r.UnitPrice
    original_customer_id := r.CustomerID
    original_country := r.Country
    raw_row_json := r }

/-- `DataQualityTracker` (lines 21-73). -/
structure DataQualityTracker where
  batch_id : String
  metrics : List DQMetric
  quarantine_records : List QuarantineEntry
deriving DecidableEq, Repr

namespace DataQualityTracker

/-- `DataQualityTracker.__init__`. -/
def init (bid : String) : DataQualityTracker :=
  { batch_id := bid, metrics := [], quarantine_records := [] }

/-- `add_metric` appends one row to the metrics collection. -/
def add_metric (t : DataQualityTracker) (rule cat : String)
    (processed passed quarantined dropped : Nat) (notes : String) :
    DataQualityTracker :=
  { t with metrics := t.metrics ++
      [{ batch_id := t.batch_id, rule_name := rule, rule_category := cat
         rows_processed := processed, rows_passed := passed
         rows_quarantined := quarantined, rows_dropped := dropped
         notes := notes }] }

/-- `quarantine_rows` appends one entry per rejected row, in order. -/
def quarantine_rows (t : DataQualityTracker) (rows : List RawRecord)
    (rule reason : String) : DataQualityTracker :=
  { t with quarantine_records :=
      t.quarantine_records ++ rows.map (mkQuarantineEntry t.batch_id rule reason) }

end DataQualityTracker

/-! The rule-stage combinators of `transform_data`.  Each stage receives
the current working set and the tracker, and returns both updated. -/

/-- A quarantine rule stage (AN001/AN002/AN003 pattern, lines 314-345):
compute the mask; if it selects at least one row, quarantine those
rows, remove them from the working set, and record one metric whose
`rows_processed` is written as `len(df) + mask.sum()` (post-filter size
plus rejection count); otherwise leave both unchanged. -/
def applyQuarantineRule (p : RawRecord → Bool) (rule cat reason notes : String)
    (df : List RawRecord) (t : DataQualityTracker) :
    List RawRecord × DataQualityTracker :=
  let rejected := df.filter p
  if 0 < rejected.length then
    let t1 := t.quarantine_rows rejected rule reason
    let kept := df.filter (fun r => !(p r))
    let t2 := t1.add_metric rule cat (kept.length + rejected.length) kept.length
      rejected.length 0 notes
    (kept, t2)
  else
    (df, t)

/-- A drop rule stage (unparseable dates, all-null rows, missing critical
fields; lines 291-298, 350-356, 366-374): filter, then record one metric
with `rows_processed = before`, `rows_dropped = before - len(df)` only
when at least one row was removed. -/
def applyDropRule (p : RawRecord → Bool) (rule cat notes : String)
    (df : List RawRecord) (t : DataQualityTracker) :
    List RawRecord × DataQualityTracker :=
  let kept := df.filter (fun r => !(p r))
  let removed := df.length - kept.length
  if 0 < removed then
    (kept, t.add_metric rule cat df.length kept.length 0 removed notes)
  else
    (kept, t)

/-- `df.drop_duplicates()` (line 359): keep the first occurrence of each
full-row value, returning the kept rows and the dropped occurrences. -/
def dedupSplit (seen : List RawRecord) : List RawRecord → List RawRecord × List RawRecord
  | [] => ([], [])
  | r :: rs =>
    if r ∈ seen then
      let (k, d) := dedupSplit seen rs
      (k, r :: d)
    else
      let (k, d) := dedupSplit (r :: seen) rs
      (r :: k, d)

/-- The exact-duplicate stage (lines 358-364): `drop_duplicates`, then one
metric (`rows_dropped = before - len(df)`) only when rows were removed. -/
def applyDedupRule (df : List RawRecord) (t : DataQualityTracker) :
    List RawRecord × DataQualityTracker :=
  let kept := (dedupSplit [] df).1
  let removed := df.length - kept.length
  if 0 < removed then
    (kept, t.add_metric "remove_exact_duplicates" "data_integrity" df.length
      kept.length 0 removed "DQ002: Exact duplicate rows")
  else
    (kept, t)

/-- One row of `stg_retail_sales` as produced by `transform_data` /
`load_to_staging` (minus the wall-clock `loaded_at`). -/
structure StagedRecord where
  invoice_no : String
  stock_code : String
  description : String
  quantity : Int
  invoice_date : Option Nat
  unit_price : Rat
  customer_id : Option Int
  country : String
  line_total : Rat
  is_cancellation : Bool
  is_adjustment : Bool
  is_guest_purchase : Bool
  is_valid_sale : Bool
  is_return : Bool
  batch_id : String
  source_file : String
deriving DecidableEq, Repr

/-- Standardization, business flags and ETL metadata (steps 2.5-2.7,
lines 377-419) for one surviving record. -/
def stage (bid : String) (r : RawRecord) : StagedRecord :=
  { invoice_no := r.invoice_no
    stock_code := r.stock_code
    description := r.description
    quantity := r.quantity
    invoice_date := r.invoice_date
    unit_price := r.unit_price
    customer_id := r.customer_id
    country := r.country
    line_total := r.line_total
    is_cancellation := r.is_cancellation
    is_adjustment := r.is_adjustment
    is_guest_purchase := r.is_guest_purchase
    is_valid_sale := r.is_valid_sale
    is_return := r.is_return
    batch_id := bid
    source_file := "online_retail.csv" }

/-- `transform_data` (lines 275-432): the ordered rule pipeline followed
by standardization, classification and metadata. -/
def transform_data (df : List RawRecord) (t : DataQualityTracker) :
    List StagedRecord × DataQualityTracker :=
  let s1 := applyDropRule unparseableDate "remove_unparseable_dates"
    "data_integrity" "DQ004: Unparseable InvoiceDate" df t
  let s2 := applyQuarantineRule suspiciousPrice
    "quarantine_suspicious_unit_price" "anomaly_detection"
    "AN001: Unit price >$10K with low quantity" "AN001: Potential pricing errors" s1.1 s1.2
  let s3 := applyQuarantineRule zeroQuantity
    "quarantine_zero_quantity" "anomaly_detection"
    "AN002: Quantity = 0" "AN002: Invalid zero quantity" s2.1 s2.2
  let s4 := applyQuarantineRule negativePrice
    "quarantine_negative_unit_price" "anomaly_detection"
    "AN003: Negative unit price" "AN003: Invalid negative price" s3.1 s3.2
  let s5 := applyDropRule allNullRow "remove_all_null_rows"
    "data_integrity" "DQ001: Completely empty rows" s4.1 s4.2
  let s6 := applyDedupRule s5.1 s5.2
  let s7 := applyDropRule missingCritical "remove_missing_critical"
    "data_integrity" "DQ003: Missing InvoiceNo/StockCode/Date/Qty/Price" s6.1 s6.2
  (s7.1.map (stage t.batch_id), s7.2)

/-! The orchestrator (`run_etl_pipeline`, lines 716-816) and its
database state. -/

/-- One row of `retail_dwh.meta_etl_batch_log` (`log_batch_execution`,
lines 597-623, minus the wall-clock start/end/duration columns). -/
structure BatchLogRow where
  batch_id : String
  status : String
  rows_extracted : Nat
  rows_loaded_staging : Nat
  rows_quarantined : Nat
  error_message : Option String
deriving DecidableEq, Repr

/-- The warehouse tables touched by the pipeline. -/
structure DBState where
  stg_retail_sales : List StagedRecord
  dq_quarantine_sales : List QuarantineEntry
  dq_metrics : List DQMetric
  meta_etl_batch_log : List BatchLogRow
deriving DecidableEq, Repr

/-- The state with all four tables empty. -/
def DBState.empty : DBState := ⟨[], [], [], []⟩

/-- `create_retail_dwh_schema` (lines 75-97): drops the legacy schemas
and (re)creates `retail_dwh` with `IF NOT EXISTS` — no effect on the
four modelled tables. -/
def create_retail_dwh_schema (db : DBState) : DBState := db

/-- `create_staging_table` (lines 99-147): `DROP TABLE IF EXISTS
retail_dwh.stg_retail_sales` then `CREATE TABLE`. -/
def create_staging_table (db : DBState) : DBState :=
  { db with stg_retail_sales := [] }

/-- `create_dq_quarantine_table` (lines 149-187): drop and recreate. -/
def create_dq_quarantine_table (db : DBState) : DBState :=
  { db with dq_quarantine_sales := [] }

/-- `create_dq_metrics_table` (lines 189-221): drop and recreate. -/
def create_dq_metrics_table (db : DBState) : DBState :=
  { db with dq_metrics := [] }

/-- `create_meta_batch_log_table` (lines 223-253): drop and recreate. -/
def create_meta_batch_log_table (db : DBState) : DBState :=
  { db with meta_etl_batch_log := [] }

/-- The table-setup sequence executed by `run_etl_pipeline` (lines
738-742) before extraction. -/
def setupTables (db : DBState) : DBState :=
  create_meta_batch_log_table (create_dq_metrics_table
    (create_dq_quarantine_table (create_staging_table (create_retail_dwh_schema db))))

/-- `get_last_successful_batch_timestamp` (lines 647-673): the maximum
`invoice_date` over staged rows whose batch is logged with status
`SUCCESS`; `None` when the join is empty or the maximum is NULL. -/
def get_last_successful_batch_timestamp (db : DBState) : Option Nat :=
  let dates := db.stg_retail_sales.filterMap (fun s =>
    if db.meta_etl_batch_log.any (fun b =>
        b.batch_id == s.batch_id && b.status == "SUCCESS") then
      s.invoice_date
    else none)
  dates.foldl (fun acc d => match acc with
    | none => some d
    | some m => some (max m d)) none

/-- `extract_data` (lines 255-273): read the whole CSV; `none` models a
missing file or a read error (the function returns `None` there). -/
def extract_data (csv : Option (List RawRecord)) : Option (List RawRecord) := csv

/-- `extract_data_incremental` (lines 675-714): full read when no prior
timestamp; otherwise keep only rows with `InvoiceDate > last_batch_date`
(a NaT date compares false and is dropped by the filter). -/
def extract_data_incremental (csv : Option (List RawRecord))
    (last_batch_date : Option Nat) : Option (List RawRecord) :=
  match csv with
  | none => none
  | some df =>
    match last_batch_date with
    | none => some df
    | some t => some (df.filter (fun r =>
        match r.InvoiceDate with
        | none => false
        | some d => decide (t < d)))

/-- `log_batch_execution` (lines 597-623): insert exactly one row into
the batch log. -/
def log_batch_execution (bid status : String)
    (rows_extracted rows_loaded rows_quarantined : Nat)
    (error_msg : Option String) (db : DBState) : DBState :=
  { db with meta_etl_batch_log := db.meta_etl_batch_log ++
      [{ batch_id := bid, status := status, rows_extracted := rows_extracted
         rows_loaded_staging := rows_loaded, rows_quarantined := rows_quarantined
         error_message := error_msg }] }

/-- `--mode full` or `--mode incremental` (`parse_arguments`, lines 625-645). -/
inductive Mode where
  | full
  | incremental
deriving DecidableEq, Repr

/-- The fallible external effects of one run: `csv = none` models an
unreadable/absent source file, `connectOk = false` a
`create_database_connection` exception, and the three load flags model
SQL insert failures inside `load_to_staging` / `load_quarantine` /
`load_dq_metrics` (each returns `False` on a failed insert). -/
structure Env where
  csv : Option (List RawRecord)
  connectOk : Bool
  stagingLoadOk : Bool
  quarantineLoadOk : Bool
  metricsLoadOk : Bool
deriving Repr

/-- The extraction branch of `run_etl_pipeline` (lines 747-751):
incremental mode first queries the cursor (against the state the run
sees at that point), full mode reads everything. -/
def extractPhase (env : Env) (mode : Mode) (db : DBState) :
    Option (List RawRecord) :=
  match mode with
  | Mode.incremental =>
      extract_data_incremental env.csv (get_last_successful_batch_timestamp db)
  | Mode.full => extract_data env.csv

/-- The transform-and-load phase of `run_etl_pipeline` (lines 765-781):
transform with a fresh tracker, then run the three load steps
(`load_to_staging`, `load_quarantine`, `load_dq_metrics`); on success
log one `SUCCESS` row, otherwise raise — caught by the handler, which
logs one `FAILED` row with the message `Loading failed`. -/
def loadPhase (env : Env) (bid : String) (df : List RawRecord) (db1 : DBState) :
    Bool × DBState :=
  let res := transform_data df (DataQualityTracker.init bid)
  let db2 := if env.stagingLoadOk then
      { db1 with stg_retail_sales := db1.stg_retail_sales ++ res.1 }
    else db1
  let db3 := if env.quarantineLoadOk then
      { db2 with dq_quarantine_sales :=
          db2.dq_quarantine_sales ++ res.2.quarantine_records }
    else db2
  let db4 := if env.metricsLoadOk then
      { db3 with dq_metrics := db3.dq_metrics ++ res.2.metrics }
    else db3
  if env.stagingLoadOk && env.quarantineLoadOk && env.metricsLoadOk then
    (true, log_batch_execution bid "SUCCESS" df.length res.1.length
      res.2.quarantine_records.length none db4)
  else
    (false, log_batch_execution bid "FAILED" 0 0 0 (some "Loading failed") db4)

/-- `run_etl_pipeline` (lines 716-816).  Returns the Python return value
(`True` on success, `False` on any caught failure) and the final
database state.  Control flow mirrors the source: connect, recreate the
tables, extract (incremental mode reads the cursor from the
just-recreated tables), branch on zero rows, transform, run the three
load steps, and write exactly one batch-log row per terminal path.  A
connection failure propagates to the `except` block with
`connection = None`, so no batch-log row is written there. -/
def run_etl_pipeline (env : Env) (db0 : DBState) (bid : String) (mode : Mode) :
    Bool × DBState :=
  if env.connectOk then
    let db1 := setupTables db0
    match extractPhase env mode db1 with
    | none =>
      (false, log_batch_execution bid "FAILED" 0 0 0 (some "Extraction failed") db1)
    | some df =>
      if df.length = 0 then
        (true, log_batch_execution bid "SUCCESS_NO_DATA" 0 0 0
          (some "No new data to process") db1)
      else
        loadPhase env bid df db1
  else
    (false, db0)

/-- The `if __name__ == "__main__"` block of `etl_pipeline.py` (lines
818-820): it calls `run_etl_pipeline(mode=args.mode)` and discards the
returned boolean; the script then falls off the end, so the process
exit code is 0 on every run. -/
def etl_pipeline_main_exit_code (env : Env) (db : DBState) (bid : String)
    (mode : Mode) : Nat :=
  let result := run_etl_pipeline env db bid mode
  let _ := result
  0

/-- `run_full_pipeline.py` lines 196-198: `sys.exit(0 if success else 1)`. -/
def run_full_pipeline_exit_code (success : Bool) : Nat :=
  if success then 0 else 1

/-! Derived measures and named intermediate working sets, used to state
the claims. -/

/-- Total rows reported dropped across a metric list. -/
def droppedSumMetrics (l : List DQMetric) : Nat :=
  (l.map (fun m => m.rows_dropped)).sum

/-- Total rows reported dropped by a tracker's metrics. -/
def droppedTotal (t : DataQualityTracker) : Nat := droppedSumMetrics t.metrics

/-- Working set after the unparseable-date drop (step 2.1). -/
def wsDates (df : List RawRecord) : List RawRecord :=
  df.filter (fun r => !(unparseableDate r))

/-- Working set after the suspicious-unit-price quarantine (AN001). -/
def wsSusp (df : List RawRecord) : List RawRecord :=
  (wsDates df).filter (fun r => !(suspiciousPrice r))

/-- Working set after the zero-quantity quarantine (AN002). -/
def wsZero (df : List RawRecord) : List RawRecord :=
  (wsSusp df).filter (fun r => !(zeroQuantity r))

/-- Working set after the negative-unit-price quarantine (AN003). -/
def wsNeg (df : List RawRecord) : List RawRecord :=
  (wsZero df).filter (fun r => !(negativePrice r))

/-- Working set after the all-null drop (DQ001). -/
def wsAllNull (df : List RawRecord) : List RawRecord :=
  (wsNeg df).filter (fun r => !(allNullRow r))

/-- Working set after exact-duplicate removal (DQ002). -/
def wsDedup (df : List RawRecord) : List RawRecord :=
  (dedupSplit [] (wsAllNull df)).1

/-- Working set after the missing-critical-field drop (DQ003): the rows
that reach classification and staging. -/
def wsFinal (df : List RawRecord) : List RawRecord :=
  (wsDedup df).filter (fun r => !(missingCritical r))

/-- Rows rejected by the suspicious-unit-price rule. -/
def quarSusp (df : List RawRecord) : List RawRecord :=
  (wsDates df).filter suspiciousPrice

/-- Rows rejected by the zero-quantity rule. -/
def quarZero (df : List RawRecord) : List RawRecord :=
  (wsSusp df).filter zeroQuantity

/-- Rows rejected by the negative-unit-price rule. -/
def quarNeg (df : List RawRecord) : List RawRecord :=
  (wsZero df).filter negativePrice

/-! Concrete records and states used by example-scenario claims,
counterexamples and witnesses. -/

/-- The §8 example-scenario row: `(invoice="C100", stock="A1", qty=-3,
price=5.00, customer=None)`, with a parseable date. -/
def exampleScenarioRecord : RawRecord :=
  ⟨some "C100", some "A1", some "GIFT", some (-3), some 1000, some 5, none, some "France"⟩

/-- A cancellation (invoice starts with the marker) with negative
quantity and a present customer id. -/
def cancellationReturnRecord : RawRecord :=
  ⟨some "C777", some "Z9", some "LAMP", some (-5), some 2000, some 3, some 123, some "Spain"⟩

/-- A guest purchase: customer id absent, all other fields present. -/
def guestRecord : RawRecord :=
  ⟨some "536321", some "B2", some "MUG", some 4, some 1500, some 2, none, some "Italy"⟩

/-- An ordinary valid row whose invoice date is 50. -/
def oldSourceRecord : RawRecord :=
  ⟨some "536365", some "85123A", some "HOLDER", some 6, some 50, some 5, some 17850,
    some "United Kingdom"⟩

/-- A warehouse state holding one prior `SUCCESS` batch `B0` whose single
staged row has invoice date 100. -/
def priorSuccessDB : DBState :=
  ⟨[stage "B0" ⟨some "536000", some "85123A", some "TRAY", some 2, some 100, some 3,
      some 111, some "France"⟩],
    [], [],
    [⟨"B0", "SUCCESS", 1, 1, 0, none⟩]⟩

/-- An environment where everything works and the source holds exactly
one row, dated 50 (older than `priorSuccessDB`'s maximum 100). -/
def staleSourceEnv : Env := ⟨some [oldSourceRecord], true, true, true, true⟩

/-- An environment whose source file is unreadable (extraction fails). -/
def missingCsvEnv : Env := ⟨none, true, true, true, true⟩

/-- An environment where establishing the database connection fails. -/
def noConnectionEnv : Env := ⟨some [oldSourceRecord], false, true, true, true⟩


/-! Helper lemmas about filtering, duplicate removal and the stage
combinators. -/

lemma filter_not_of_filter_eq_nil {p : RawRecord → Bool} {l : List RawRecord}
    (h : l.filter p = []) : l.filter (fun r => !(p r)) = l := by
  induction l with
  | nil => rfl
  | cons a l ih =>
    cases hpa : p a with
    | true => simp [List.filter, hpa] at h
    | false =>
      simp only [List.filter, hpa] at h ⊢
      simp [ih h]

lemma dedupSplit_length (seen : List RawRecord) (l : List RawRecord) :
    (dedupSplit seen l).1.length + (dedupSplit seen l).2.length = l.length := by
  induction l generalizing seen with
  | nil => simp [dedupSplit]
  | cons r rs ih =>
    by_cases h : r ∈ seen
    · have := ih seen
      simp only [dedupSplit, if_pos h, List.length_cons]
      omega
    · have := ih (r :: seen)
      simp only [dedupSplit, if_neg h, List.length_cons]
      omega

lemma applyQuarantineRule_fst (p : RawRecord → Bool) (rule cat reason notes : String)
    (df : List RawRecord) (t : DataQualityTracker) :
    (applyQuarantineRule p rule cat reason notes df t).1 =
      df.filter (fun r => !(p r)) := by
  simp only [applyQuarantineRule]
  split
  · rfl
  · next h =>
    have hnil : df.filter p = [] := by
      cases hf : df.filter p with
      | nil => rfl
      | cons a l => rw [hf] at h; simp at h
    simp [filter_not_of_filter_eq_nil hnil]

lemma applyQuarantineRule_snd_quarantine (p : RawRecord → Bool)
    (rule cat reason notes : String) (df : List RawRecord) (t : DataQualityTracker) :
    (applyQuarantineRule p rule cat reason notes df t).2.quarantine_records =
      t.quarantine_records ++
        (df.filter p).map (mkQuarantineEntry t.batch_id rule reason) := by
  simp only [applyQuarantineRule]
  split
  · rfl
  · next h =>
    have hnil : df.filter p = [] := by
      cases hf : df.filter p with
      | nil => rfl
      | cons a l => rw [hf] at h; simp at h
    simp [hnil]

lemma applyQuarantineRule_snd_metrics (p : RawRecord → Bool)
    (rule cat reason notes : String) (df : List RawRecord) (t : DataQualityTracker) :
    (applyQuarantineRule p rule cat reason notes df t).2.metrics =
      if (df.filter p).length = 0 then t.metrics
      else t.metrics ++
        [{ batch_id := t.batch_id, rule_name := rule, rule_category := cat
           rows_processed := df.length
           rows_passed := (df.filter (fun r => !(p r))).length
           rows_quarantined := (df.filter p).length
           rows_dropped := 0, notes := notes }] := by
  have hpart := List.length_eq_length_filter_add (l := df) p
  simp only [applyQuarantineRule]
  split
  · next h =>
    rw [if_neg (by omega)]
    simp only [DataQualityTracker.quarantine_rows, DataQualityTracker.add_metric]
    have hlen : (df.filter (fun r => !(p r))).length + (df.filter p).length
        = df.length := by
      simp only [hpart]
      omega
    rw [hlen]
  · next h =>
    rw [if_pos (by omega)]

lemma applyQuarantineRule_snd_batch_id (p : RawRecord → Bool)
    (rule cat reason notes : String) (df : List RawRecord) (t : DataQualityTracker) :
    (applyQuarantineRule p rule cat reason notes df t).2.batch_id = t.batch_id := by
  simp only [applyQuarantineRule]
  split <;> rfl

lemma applyDropRule_fst (p : RawRecord → Bool) (rule cat notes : String)
    (df : List RawRecord) (t : DataQualityTracker) :
    (applyDropRule p rule cat notes df t).1 = df.filter (fun r => !(p r)) := by
  simp only [applyDropRule]
  split <;> rfl

lemma applyDropRule_snd_quarantine (p : RawRecord → Bool) (rule cat notes : String)
    (df : List RawRecord) (t : DataQualityTracker) :
    (applyDropRule p rule cat notes df t).2.quarantine_records =
      t.quarantine_records := by
  simp only [applyDropRule]
  split <;> rfl

lemma applyDropRule_snd_metrics (p : RawRecord → Bool) (rule cat notes : String)
    (df : List RawRecord) (t : DataQualityTracker) :
    (applyDropRule p rule cat notes df t).2.metrics =
      if (df.filter p).length = 0 then t.metrics
      else t.metrics ++
        [{ batch_id := t.batch_id, rule_name := rule, rule_category := cat
           rows_processed := df.length
           rows_passed := (df.filter (fun r => !(p r))).length
           rows_quarantined := 0
           rows_dropped := (df.filter p).length, notes := notes }] := by
  have hpart := List.length_eq_length_filter_add (l := df) p
  simp only [applyDropRule]
  split
  · next h =>
    rw [if_neg (by omega)]
    simp only [DataQualityTracker.add_metric]
    have hlen : df.length - (df.filter (fun r => !(p r))).length
        = (df.filter p).length := by
      simp only [hpart]
      omega
    rw [hlen]
  · next h =>
    rw [if_pos (by omega)]

lemma applyDropRule_snd_batch_id (p : RawRecord → Bool) (rule cat notes : String)
    (df : List RawRecord) (t : DataQualityTracker) :
    (applyDropRule p rule cat notes df t).2.batch_id = t.batch_id := by
  simp only [applyDropRule]
  split <;> rfl

lemma applyDedupRule_fst (df : List RawRecord) (t : DataQualityTracker) :
    (applyDedupRule df t).1 = (dedupSplit [] df).1 := by
  simp only [applyDedupRule]
  split <;> rfl

lemma applyDedupRule_snd_quarantine (df : List RawRecord) (t : DataQualityTracker) :
    (applyDedupRule df t).2.quarantine_records = t.quarantine_records := by
  simp only [applyDedupRule]
  split <;> rfl

lemma applyDedupRule_snd_metrics (df : List RawRecord) (t : DataQualityTracker) :
    (applyDedupRule df t).2.metrics =
      if (dedupSplit [] df).2.length = 0 then t.metrics
      else t.metrics ++
        [{ batch_id := t.batch_id, rule_name := "remove_exact_duplicates"
           rule_category := "data_integrity"
           rows_processed := df.length
           rows_passed := (dedupSplit [] df).1.length
           rows_quarantined := 0
           rows_dropped := (dedupSplit [] df).2.length
           notes := "DQ002: Exact duplicate rows" }] := by
  have hpart := dedupSplit_length [] df
  simp only [applyDedupRule]
  split
  · next h =>
    rw [if_neg (by omega)]
    simp only [DataQualityTracker.add_metric]
    have hlen : df.length - (dedupSplit [] df).1.length
        = (dedupSplit [] df).2.length := by
      omega
    rw [hlen]
  · next h =>
    rw [if_pos (by omega)]

lemma applyDedupRule_snd_batch_id (df : List RawRecord) (t : DataQualityTracker) :
    (applyDedupRule df t).2.batch_id = t.batch_id := by
  simp only [applyDedupRule]
  split <;> rfl

lemma droppedSumMetrics_append (l l' : List DQMetric) :
    droppedSumMetrics (l ++ l') = droppedSumMetrics l + droppedSumMetrics l' := by
  simp [droppedSumMetrics]

lemma applyQuarantineRule_droppedTotal (p : RawRecord → Bool)
    (rule cat reason notes : String) (df : List RawRecord) (t : DataQualityTracker) :
    droppedTotal (applyQuarantineRule p rule cat reason notes df t).2 =
      droppedTotal t := by
  simp only [droppedTotal, applyQuarantineRule_snd_metrics]
  split
  · rfl
  · simp [droppedSumMetrics_append, droppedSumMetrics]

lemma applyDropRule_droppedTotal (p : RawRecord → Bool) (rule cat notes : String)
    (df : List RawRecord) (t : DataQualityTracker) :
    droppedTotal (applyDropRule p rule cat notes df t).2 =
      droppedTotal t + (df.filter p).length := by
  simp only [droppedTotal, applyDropRule_snd_metrics]
  split
  · next h => omega
  · simp [droppedSumMetrics_append, droppedSumMetrics]

lemma applyDedupRule_droppedTotal (df : List RawRecord) (t : DataQualityTracker) :
    droppedTotal (applyDedupRule df t).2 =
      droppedTotal t + (dedupSplit [] df).2.length := by
  simp only [droppedTotal, applyDedupRule_snd_metrics]
  split
  · next h => omega
  · simp [droppedSumMetrics_append, droppedSumMetrics]

lemma transform_data_fst (df : List RawRecord) (t : DataQualityTracker) :
    (transform_data df t).1 = (wsFinal df).map (stage t.batch_id) := by
  simp only [transform_data, applyDropRule_fst, applyQuarantineRule_fst,
    applyDedupRule_fst, wsFinal, wsDedup, wsAllNull, wsNeg, wsZero, wsSusp, wsDates]

lemma transform_data_batch_id (df : List RawRecord) (t : DataQualityTracker) :
    (transform_data df t).2.batch_id = t.batch_id := by
  simp only [transform_data, applyDropRule_snd_batch_id, applyDedupRule_snd_batch_id,
    applyQuarantineRule_snd_batch_id]

lemma transform_data_quarantine (df : List RawRecord) (t : DataQualityTracker) :
    (transform_data df t).2.quarantine_records =
      t.quarantine_records
        ++ (quarSusp df).map (mkQuarantineEntry t.batch_id
              "quarantine_suspicious_unit_price" "AN001: Unit price >$10K with low quantity")
        ++ (quarZero df).map (mkQuarantineEntry t.batch_id
              "quarantine_zero_quantity" "AN002: Quantity = 0")
        ++ (quarNeg df).map (mkQuarantineEntry t.batch_id
              "quarantine_negative_unit_price" "AN003: Negative unit price") := by
  simp only [transform_data, applyDropRule_snd_quarantine, applyDedupRule_snd_quarantine,
    applyQuarantineRule_snd_quarantine, applyQuarantineRule_fst, applyDropRule_fst,
    applyQuarantineRule_snd_batch_id, applyDropRule_snd_batch_id,
    quarSusp, quarZero, quarNeg, wsSusp, wsZero, wsDates, List.append_assoc]

lemma transform_data_droppedTotal (df : List RawRecord) (t : DataQualityTracker) :
    droppedTotal (transform_data df t).2 =
      droppedTotal t
        + (df.filter unparseableDate).length
        + ((wsNeg df).filter allNullRow).length
        + (dedupSplit [] (wsAllNull df)).2.length
        + ((wsDedup df).filter missingCritical).length := by
  simp only [transform_data, applyDropRule_droppedTotal, applyDedupRule_droppedTotal,
    applyQuarantineRule_droppedTotal, applyDropRule_fst, applyQuarantineRule_fst,
    applyDedupRule_fst, wsDedup, wsAllNull, wsNeg, wsZero, wsSusp, wsDates]

lemma transform_data_conservation (df : List RawRecord) (t : DataQualityTracker) :
    (transform_data df t).1.length
      + (transform_data df t).2.quarantine_records.length
      + droppedTotal (transform_data df t).2
      = df.length + t.quarantine_records.length + droppedTotal t := by
  have hfst := transform_data_fst df t
  have hq := transform_data_quarantine df t
  have hd := transform_data_droppedTotal df t
  have p1 := List.length_eq_length_filter_add (l := df) unparseableDate
  have p2 := List.length_eq_length_filter_add (l := wsDates df) suspiciousPrice
  have p3 := List.length_eq_length_filter_add (l := wsSusp df) zeroQuantity
  have p4 := List.length_eq_length_filter_add (l := wsZero df) negativePrice
  have p5 := List.length_eq_length_filter_add (l := wsNeg df) allNullRow
  have p6 := dedupSplit_length [] (wsAllNull df)
  have p7 := List.length_eq_length_filter_add (l := wsDedup df) missingCritical
  rw [hfst, hq, hd]
  simp only [List.length_map, List.length_append, wsFinal, wsDedup, wsAllNull, wsNeg,
    wsZero, wsSusp, wsDates, quarSusp, quarZero, quarNeg] at *
  omega

/-! Path lemmas for `run_etl_pipeline`. -/

lemma setupTables_eq_empty (db : DBState) : setupTables db = DBState.empty := rfl

lemma run_of_connect_fail (env : Env) (db : DBState) (bid : String) (mode : Mode)
    (h : env.connectOk = false) :
    run_etl_pipeline env db bid mode = (false, db) := by
  simp [run_etl_pipeline, h]

lemma run_of_extract_none (env : Env) (db : DBState) (bid : String) (mode : Mode)
    (hc : env.connectOk = true)
    (hdf : extractPhase env mode (setupTables db) = none) :
    run_etl_pipeline env db bid mode =
      (false, ⟨[], [], [], [⟨bid, "FAILED", 0, 0, 0, some "Extraction failed"⟩]⟩) := by
  unfold run_etl_pipeline
  rw [hc]
  simp only [if_true]
  rw [hdf]
  rfl

lemma run_of_extract_zero (env : Env) (db : DBState) (bid : String) (mode : Mode)
    (df : List RawRecord) (hc : env.connectOk = true)
    (hdf : extractPhase env mode (setupTables db) = some df)
    (hlen : df.length = 0) :
    run_etl_pipeline env db bid mode =
      (true, ⟨[], [], [],
        [⟨bid, "SUCCESS_NO_DATA", 0, 0, 0, some "No new data to process"⟩]⟩) := by
  unfold run_etl_pipeline
  rw [hc]
  simp only [if_true]
  rw [hdf]
  simp only [hlen, if_pos, eq_self_iff_true, if_true]
  rfl

lemma run_of_extract_pos (env : Env) (db : DBState) (bid : String) (mode : Mode)
    (df : List RawRecord) (hc : env.connectOk = true)
    (hdf : extractPhase env mode (setupTables db) = some df)
    (hlen : ¬df.length = 0) :
    run_etl_pipeline env db bid mode = loadPhase env bid df DBState.empty := by
  unfold run_etl_pipeline
  rw [hc]
  simp only [if_true]
  rw [hdf]
  simp only [if_neg hlen]
  rfl

lemma loadPhase_loaded (env : Env) (bid : String) (df : List RawRecord)
    (h1 : env.stagingLoadOk = true) (h2 : env.quarantineLoadOk = true)
    (h3 : env.metricsLoadOk = true) :
    loadPhase env bid df DBState.empty =
      (true, ⟨(transform_data df (DataQualityTracker.init bid)).1,
        (transform_data df (DataQualityTracker.init bid)).2.quarantine_records,
        (transform_data df (DataQualityTracker.init bid)).2.metrics,
        [⟨bid, "SUCCESS", df.length,
          (transform_data df (DataQualityTracker.init bid)).1.length,
          (transform_data df (DataQualityTracker.init bid)).2.quarantine_records.length,
          none⟩]⟩) := by
  unfold loadPhase
  generalize transform_data df (DataQualityTracker.init bid) = res
  simp only [h1, h2, h3, Bool.and_self, if_true]
  rfl

lemma loadPhase_fail (env : Env) (bid : String) (df : List RawRecord)
    (hfail : (env.stagingLoadOk && env.quarantineLoadOk && env.metricsLoadOk) = false) :
    (loadPhase env bid df DBState.empty).1 = false ∧
      (loadPhase env bid df DBState.empty).2.meta_etl_batch_log =
        [⟨bid, "FAILED", 0, 0, 0, some "Loading failed"⟩] := by
  unfold loadPhase
  generalize transform_data df (DataQualityTracker.init bid) = res
  rw [hfail]
  simp only [Bool.false_eq_true, if_false]
  cases hs : env.stagingLoadOk <;> cases hq : env.quarantineLoadOk <;>
    cases hm : env.metricsLoadOk <;>
    simp [hs, hq, hm, log_batch_execution, DBState.empty]

set_option maxHeartbeats 1000000 in
lemma batch_row_conservation (env : Env) (db : DBState) (bid : String) (mode : Mode)
    (b : BatchLogRow) (hc : env.connectOk = true)
    (hlog : (run_etl_pipeline env db bid mode).2.meta_etl_batch_log = [b])
    (hstat : b.status = "SUCCESS") :
    b.rows_extracted = b.rows_loaded_staging + b.rows_quarantined
      + droppedSumMetrics (run_etl_pipeline env db bid mode).2.dq_metrics := by
  cases hdf : extractPhase env mode (setupTables db) with
  | none =>
    rw [run_of_extract_none env db bid mode hc hdf] at hlog
    simp only [List.cons.injEq, and_true] at hlog
    rw [← hlog] at hstat
    simp at hstat
  | some df =>
    by_cases hlen : df.length = 0
    · rw [run_of_extract_zero env db bid mode df hc hdf hlen] at hlog
      simp only [List.cons.injEq, and_true] at hlog
      rw [← hlog] at hstat
      simp at hstat
    · rw [run_of_extract_pos env db bid mode df hc hdf hlen] at hlog ⊢
      by_cases hload :
          (env.stagingLoadOk && env.quarantineLoadOk && env.metricsLoadOk) = true
      · simp only [Bool.and_eq_true] at hload
        rw [loadPhase_loaded env bid df hload.1.1 hload.1.2 hload.2] at hlog ⊢
        simp only [List.cons.injEq, and_true] at hlog
        rw [← hlog]
        have hcons := transform_data_conservation df (DataQualityTracker.init bid)
        have hz1 : (DataQualityTracker.init bid).quarantine_records.length = 0 := rfl
        have hz2 : droppedTotal (DataQualityTracker.init bid) = 0 := rfl
        rw [hz1, hz2] at hcons
        simp only [droppedTotal] at hcons
        dsimp only
        omega
      · have hfail :
            (env.stagingLoadOk && env.quarantineLoadOk && env.metricsLoadOk) = false := by
          cases h : (env.stagingLoadOk && env.quarantineLoadOk && env.metricsLoadOk)
          · rfl
          · exact absurd h hload
        rw [(loadPhase_fail env bid df hfail).2] at hlog
        simp only [List.cons.injEq, and_true] at hlog
        rw [← hlog] at hstat
        simp at hstat

lemma extractPhase_csv_none (env : Env) (mode : Mode) (db : DBState)
    (hcsv : env.csv = none) : extractPhase env mode db = none := by
  cases mode <;> simp [extractPhase, extract_data, extract_data_incremental, hcsv]

lemma filter_filter_not_self (p : RawRecord → Bool) (l : List RawRecord) :
    (l.filter (fun r => !(p r))).filter p = [] := by
  induction l with
  | nil => rfl
  | cons a l ih =>
    cases hpa : p a <;> simp [List.filter, hpa, ih]

/-- C1: Row conservation.  (i) For every batch transformation with a
fresh tracker, the staged count plus the quarantined count plus the
total dropped count equals the input count.  (ii)-(iv) At every
individual rule stage (quarantine rule, drop rule, duplicate removal)
the pre-rule working-set size equals the post-rule size plus the number
of rows that stage rejected.  (v) For every batch run whose single
batch-log row reports `SUCCESS`, the logged `rows_extracted` equals
`rows_loaded_staging` plus `rows_quarantined` plus the rows dropped
across the batch's persisted metrics. -/
theorem C1_row_conservation :
    (∀ (df : List RawRecord) (bid : String),
      (transform_data df (DataQualityTracker.init bid)).1.length
        + (transform_data df (DataQualityTracker.init bid)).2.quarantine_records.length
        + droppedTotal (transform_data df (DataQualityTracker.init bid)).2
        = df.length)
    ∧ (∀ (p : RawRecord → Bool) (rule cat reason notes : String)
        (df : List RawRecord) (t : DataQualityTracker),
        df.length = (applyQuarantineRule p rule cat reason notes df t).1.length
          + (df.filter p).length)
    ∧ (∀ (p : RawRecord → Bool) (rule cat notes : String)
        (df : List RawRecord) (t : DataQualityTracker),
        df.length = (applyDropRule p rule cat notes df t).1.length
          + (df.filter p).length)
    ∧ (∀ (df : List RawRecord) (t : DataQualityTracker),
        df.length = (applyDedupRule df t).1.length + (dedupSplit [] df).2.length)
    ∧ (∀ (env : Env) (db : DBState) (bid : String) (mode : Mode) (b : BatchLogRow),
        env.connectOk = true →
        (run_etl_pipeline env db bid mode).2.meta_etl_batch_log = [b] →
        b.status = "SUCCESS" →
        b.rows_extracted = b.rows_loaded_staging + b.rows_quarantined
          + droppedSumMetrics (run_etl_pipeline env db bid mode).2.dq_metrics) := by
  refine ⟨?_, ?_, ?_, ?_, ?_⟩
  · intro df bid
    have h := transform_data_conservation df (DataQualityTracker.init bid)
    have hz1 : (DataQualityTracker.init bid).quarantine_records.length = 0 := rfl
    have hz2 : droppedTotal (DataQualityTracker.init bid) = 0 := rfl
    omega
  · intro p rule cat reason notes df t
    rw [applyQuarantineRule_fst]
    have h := List.length_eq_length_filter_add (l := df) p
    omega
  · intro p rule cat notes df t
    rw [applyDropRule_fst]
    have h := List.length_eq_length_filter_add (l := df) p
    omega
  · intro df t
    rw [applyDedupRule_fst]
    exact (dedupSplit_length [] df).symm
  · exact batch_row_conservation

/-- C1 witness: a successful one-row full run satisfies the batch-level
conservation equation. -/
theorem C1_row_conservation_witness :
    (⟨"B1", "SUCCESS", 1, 1, 0, none⟩ : BatchLogRow).rows_extracted =
      (⟨"B1", "SUCCESS", 1, 1, 0, none⟩ : BatchLogRow).rows_loaded_staging
        + (⟨"B1", "SUCCESS", 1, 1, 0, none⟩ : BatchLogRow).rows_quarantined
        + droppedSumMetrics
            (run_etl_pipeline staleSourceEnv DBState.empty "B1" Mode.full).2.dq_metrics :=
  C1_row_conservation.2.2.2.2 staleSourceEnv DBState.empty "B1" Mode.full
    ⟨"B1", "SUCCESS", 1, 1, 0, none⟩ rfl (by decide) rfl

/-- C3: DQMetric emission contract for the three rule-stage shapes: a
rule invocation that rejects at least one row appends exactly one
metric row with `rows_processed` the pre-rule size, `rows_passed` the
post-rule size, the rejection count in exactly one of
`rows_quarantined`/`rows_dropped` and 0 in the other; an invocation
rejecting zero rows appends nothing. -/
theorem C3_dq_metric_emission :
    (∀ (p : RawRecord → Bool) (rule cat reason notes : String)
      (df : List RawRecord) (t : DataQualityTracker),
      (applyQuarantineRule p rule cat reason notes df t).2.metrics =
        if (df.filter p).length = 0 then t.metrics
        else t.metrics ++
          [{ batch_id := t.batch_id, rule_name := rule, rule_category := cat
             rows_processed := df.length
             rows_passed := (applyQuarantineRule p rule cat reason notes df t).1.length
             rows_quarantined := (df.filter p).length
             rows_dropped := 0, notes := notes }])
    ∧ (∀ (p : RawRecord → Bool) (rule cat notes : String)
        (df : List RawRecord) (t : DataQualityTracker),
        (applyDropRule p rule cat notes df t).2.metrics =
          if (df.filter p).length = 0 then t.metrics
          else t.metrics ++
            [{ batch_id := t.batch_id, rule_name := rule, rule_category := cat
               rows_processed := df.length
               rows_passed := (applyDropRule p rule cat notes df t).1.length
               rows_quarantined := 0
               rows_dropped := (df.filter p).length, notes := notes }])
    ∧ (∀ (df : List RawRecord) (t : DataQualityTracker),
        (applyDedupRule df t).2.metrics =
          if (dedupSplit [] df).2.length = 0 then t.metrics
          else t.metrics ++
            [{ batch_id := t.batch_id, rule_name := "remove_exact_duplicates"
               rule_category := "data_integrity"
               rows_processed := df.length
               rows_passed := (applyDedupRule df t).1.length
               rows_quarantined := 0
               rows_dropped := (dedupSplit [] df).2.length
               notes := "DQ002: Exact duplicate rows" }]) := by
  refine ⟨?_, ?_, ?_⟩
  · intro p rule cat reason notes df t
    rw [applyQuarantineRule_snd_metrics, applyQuarantineRule_fst]
  · intro p rule cat notes df t
    rw [applyDropRule_snd_metrics, applyDropRule_fst]
  · intro df t
    rw [applyDedupRule_snd_metrics, applyDedupRule_fst]

/-- C4: Quarantine completeness and single disposition.  (i) The staged
output is the final working set.  (ii) The quarantine output is exactly
one entry per rejected row, in rule order, carrying the triggering rule
name, the original field values and the full snapshot
(`mkQuarantineEntry`).  (iii)-(v) A row caught by a quarantine rule is
removed from the working set immediately: the post-rule working set
contains no row matching that rule's predicate, and each later working
set is a filter of the previous one. -/
theorem C4_quarantine_completeness :
    ∀ (df : List RawRecord) (bid : String),
      ((transform_data df (DataQualityTracker.init bid)).1 =
        (wsFinal df).map (stage bid))
      ∧ ((transform_data df (DataQualityTracker.init bid)).2.quarantine_records =
          (quarSusp df).map (mkQuarantineEntry bid "quarantine_suspicious_unit_price"
              "AN001: Unit price >$10K with low quantity")
            ++ (quarZero df).map (mkQuarantineEntry bid "quarantine_zero_quantity"
              "AN002: Quantity = 0")
            ++ (quarNeg df).map (mkQuarantineEntry bid "quarantine_negative_unit_price"
              "AN003: Negative unit price"))
      ∧ (wsSusp df).filter suspiciousPrice = []
      ∧ (wsZero df).filter zeroQuantity = []
      ∧ (wsNeg df).filter negativePrice = [] := by
  intro df bid
  refine ⟨?_, ?_, ?_, ?_, ?_⟩
  · have h := transform_data_fst df (DataQualityTracker.init bid)
    have hb : (DataQualityTracker.init bid).batch_id = bid := rfl
    rw [hb] at h
    exact h
  · have h := transform_data_quarantine df (DataQualityTracker.init bid)
    have hb : (DataQualityTracker.init bid).batch_id = bid := rfl
    have hq0 : (DataQualityTracker.init bid).quarantine_records = [] := rfl
    rw [hb, hq0, List.nil_append] at h
    exact h
  · exact filter_filter_not_self suspiciousPrice (wsDates df)
  · exact filter_filter_not_self zeroQuantity (wsSusp df)
  · exact filter_filter_not_self negativePrice (wsZero df)

/-- C5: the §8 example scenario: the record
`(invoice="C100", stock="A1", qty=-3, price=5.00, customer=None)`
survives the rule pipeline and is classified with
is_cancellation, is_guest_purchase and is_return true, is_adjustment
and is_valid_sale false. -/
theorem C5_example_scenario :
    ((transform_data [exampleScenarioRecord] (DataQualityTracker.init "B")).1.map
        (fun s => (s.is_cancellation, s.is_adjustment, s.is_guest_purchase,
          s.is_valid_sale, s.is_return)))
      = [(true, false, true, false, true)]
    ∧ exampleScenarioRecord.is_cancellation = true
    ∧ exampleScenarioRecord.is_adjustment = false
    ∧ exampleScenarioRecord.is_guest_purchase = true
    ∧ exampleScenarioRecord.is_valid_sale = false
    ∧ exampleScenarioRecord.is_return = true := by
  decide

/-- C6 counterexample: a record whose invoice number starts with the
cancellation marker and whose quantity is negative is classified
is_cancellation = true and is_return = true, not is_return = false as
the claim states. -/
theorem C6_counterexample :
    cancellationReturnRecord.is_cancellation = true
    ∧ cancellationReturnRecord.quantity < 0
    ∧ ¬cancellationReturnRecord.is_return = false := by
  decide

/-- C6 amended: for every record whose invoice_no begins with the
cancellation marker and whose quantity is negative, the classifier sets
is_cancellation = true and is_return = true simultaneously (is_return
requires NOT is_adjustment only, and such a record is never an
adjustment because is_adjustment requires NOT is_cancellation). -/
theorem C6_cancellation_return_cooccurrence (r : RawRecord)
    (h1 : pyStartsWithC r.invoice_no = true) (h2 : r.quantity < 0) :
    r.is_cancellation = true ∧ r.is_return = true := by
  have hc : r.is_cancellation = true := h1
  refine ⟨hc, ?_⟩
  simp [RawRecord.is_return, RawRecord.is_adjustment, hc, h2]

/-- C6 witness: the amended statement at the concrete co-occurrence
record. -/
theorem C6_cancellation_return_cooccurrence_witness :
    cancellationReturnRecord.is_cancellation = true
    ∧ cancellationReturnRecord.is_return = true :=
  C6_cancellation_return_cooccurrence cancellationReturnRecord (by decide) (by decide)

/-- C7: Guest invariant.  (i) For every staged record the guest flag is
exactly absence of the customer id.  (ii) Every record actually staged
by a transformation satisfies it.  (iii) The missing-critical-field
rule ignores the customer id entirely.  (iv) A record lacking only its
customer id survives to classification and is staged flagged as a guest
purchase. -/
theorem C7_guest_invariant :
    (∀ (bid : String) (r : RawRecord),
      (stage bid r).is_guest_purchase = (stage bid r).customer_id.isNone)
    ∧ (∀ (df : List RawRecord) (bid : String),
        ((transform_data df (DataQualityTracker.init bid)).1.all
          (fun s => s.is_guest_purchase == s.customer_id.isNone)) = true)
    ∧ (∀ (r : RawRecord) (c : Option Int),
        missingCritical { r with CustomerID := c } = missingCritical r)
    ∧ ((transform_data [guestRecord] (DataQualityTracker.init "B")).1.map
        (fun s => s.is_guest_purchase) = [true]) := by
  refine ⟨?_, ?_, ?_, ?_⟩
  · intro bid r
    rfl
  · intro df bid
    have h := transform_data_fst df (DataQualityTracker.init bid)
    rw [h]
    simp [List.all_eq_true, stage, RawRecord.is_guest_purchase, RawRecord.customer_id]
  · intro r c
    rfl
  · decide

/-- C2: the incremental cursor is read only after the destructive table
refresh, so a prior `SUCCESS` batch is never visible: with a warehouse
holding a `SUCCESS` batch of maximum invoice timestamp 100 and a source
whose only record is dated 50, an incremental run extracts that stale
record anyway and finishes `SUCCESS` with rows_extracted = 1 instead of
`SUCCESS_NO_DATA` with rows_extracted = 0. -/
theorem C2_incremental_cursor_destroyed :
    get_last_successful_batch_timestamp priorSuccessDB = some 100
    ∧ oldSourceRecord.InvoiceDate = some 50
    ∧ (run_etl_pipeline staleSourceEnv priorSuccessDB "B1" Mode.incremental).1 = true
    ∧ ((run_etl_pipeline staleSourceEnv priorSuccessDB "B1" Mode.incremental).2.meta_etl_batch_log.map
        (fun b => (b.status, b.rows_extracted))) = [("SUCCESS", 1)] := by
  decide

/-- C8 counterexample: when establishing the database connection fails
the run terminates as a failure without writing any batch-log record,
so not every terminal outcome writes exactly one Batch record. -/
theorem C8_counterexample :
    (run_etl_pipeline noConnectionEnv DBState.empty "B2" Mode.full).1 = false
    ∧ (run_etl_pipeline noConnectionEnv DBState.empty "B2" Mode.full).2.meta_etl_batch_log
        = [] := by
  decide

/-- C8 amended: once a database connection is established, every
terminal outcome writes exactly one batch-log record; an extraction
failure is recorded as `FAILED` with the triggering message, and a load
failure on a non-empty batch is recorded as `FAILED` with the
triggering message. -/
theorem C8_batch_finalization (env : Env) (db : DBState) (bid : String) (mode : Mode)
    (hc : env.connectOk = true) :
    (run_etl_pipeline env db bid mode).2.meta_etl_batch_log.length = 1
    ∧ (env.csv = none →
        (run_etl_pipeline env db bid mode).2.meta_etl_batch_log =
          [⟨bid, "FAILED", 0, 0, 0, some "Extraction failed"⟩])
    ∧ (∀ df : List RawRecord, extractPhase env mode (setupTables db) = some df →
        ¬df.length = 0 →
        (env.stagingLoadOk && env.quarantineLoadOk && env.metricsLoadOk) = false →
        (run_etl_pipeline env db bid mode).2.meta_etl_batch_log =
          [⟨bid, "FAILED", 0, 0, 0, some "Loading failed"⟩]) := by
  refine ⟨?_, ?_, ?_⟩
  · cases hdf : extractPhase env mode (setupTables db) with
    | none =>
      rw [run_of_extract_none env db bid mode hc hdf]
      rfl
    | some df =>
      by_cases hlen : df.length = 0
      · rw [run_of_extract_zero env db bid mode df hc hdf hlen]
        rfl
      · rw [run_of_extract_pos env db bid mode df hc hdf hlen]
        by_cases hload :
            (env.stagingLoadOk && env.quarantineLoadOk && env.metricsLoadOk) = true
        · simp only [Bool.and_eq_true] at hload
          rw [loadPhase_loaded env bid df hload.1.1 hload.1.2 hload.2]
          rfl
        · have hfail :
              (env.stagingLoadOk && env.quarantineLoadOk && env.metricsLoadOk)
                = false := by
            cases h : (env.stagingLoadOk && env.quarantineLoadOk && env.metricsLoadOk)
            · rfl
            · exact absurd h hload
          rw [(loadPhase_fail env bid df hfail).2]
          rfl
  · intro hcsv
    rw [run_of_extract_none env db bid mode hc (extractPhase_csv_none env mode _ hcsv)]
  · intro df hdf hlen hfail
    rw [run_of_extract_pos env db bid mode df hc hdf hlen]
    exact (loadPhase_fail env bid df hfail).2

/-- C8 witness: a concrete run with an unreadable source file writes
exactly one batch record, the `FAILED` row with the extraction error. -/
theorem C8_batch_finalization_witness :
    (run_etl_pipeline missingCsvEnv DBState.empty "B3" Mode.full).2.meta_etl_batch_log.length = 1
    ∧ (run_etl_pipeline missingCsvEnv DBState.empty "B3" Mode.full).2.meta_etl_batch_log =
        [⟨"B3", "FAILED", 0, 0, 0, some "Extraction failed"⟩] :=
  ⟨(C8_batch_finalization missingCsvEnv DBState.empty "B3" Mode.full rfl).1,
    (C8_batch_finalization missingCsvEnv DBState.empty "B3" Mode.full rfl).2.1 rfl⟩

/-- C9: the `etl_pipeline.py` entry point discards the boolean returned
by `run_etl_pipeline`, so the process exits 0 even when the run failed
(here: unreadable source file ⇒ run returns failure, exit code 0); the
`run_full_pipeline.py` entry point does map its success flag to exit
codes 0/1. -/
theorem C9_exit_code_zero_on_failure :
    (run_etl_pipeline missingCsvEnv DBState.empty "B4" Mode.full).1 = false
    ∧ etl_pipeline_main_exit_code missingCsvEnv DBState.empty "B4" Mode.full = 0
    ∧ run_full_pipeline_exit_code false = 1
    ∧ run_full_pipeline_exit_code true = 0 := by
  decide

/-- C10: destructive refresh.  (i) The table-setup sequence run before
extraction empties all four warehouse tables whatever they held.
(ii) Consequently the whole run — in either mode — is independent of
the warehouse state it starts from: records persisted by earlier
batches cannot influence it and are destroyed. -/
theorem C10_destructive_refresh :
    (∀ db : DBState, setupTables db = DBState.empty)
    ∧ (∀ (env : Env) (bid : String) (mode : Mode) (db db' : DBState),
        env.connectOk = true →
        run_etl_pipeline env db bid mode = run_etl_pipeline env db' bid mode) := by
  refine ⟨setupTables_eq_empty, ?_⟩
  intro env bid mode db db' hc
  unfold run_etl_pipeline
  rw [hc]
  simp only [if_true, setupTables_eq_empty]

/-- C10 witness: a run started on a populated warehouse equals the same
run started on an empty one. -/
theorem C10_destructive_refresh_witness :
    run_etl_pipeline staleSourceEnv priorSuccessDB "B5" Mode.incremental
      = run_etl_pipeline staleSourceEnv DBState.empty "B5" Mode.incremental :=
  C10_destructive_refresh.2 staleSourceEnv "B5" Mode.incremental priorSuccessDB
    DBState.empty rfl
